import Mathlib

set_option maxRecDepth 8000

/-!
Verification of the interaction-orchestration core of the Freshdesk/Intercom
canvas app (Express server in `server.js` plus `conversation-helper.js`).
HTTP effects are modelled by oracle parameters (one outcome per attempt, one
fetched list per session, and so on); all bookkeeping logic is translated
directly from the source.
-/

/-- Error thrown by a single axios attempt: either an HTTP error response with
a status code (axios rejects on any non-2xx status) or a transport/timeout
failure with no response. -/
inductive ReqError where
  | httpStatus (code : Nat)
  | transport
deriving DecidableEq

/-- Loop body of `fetchWithRetry` (server.js lines 469-495).  `outcomes i` is
the result of attempt `i` (0-based).  `fuel` is the number of retries still
allowed; when it reaches 0 the attempt result is returned as-is (a final
error is rethrown to the caller).  The returned `Nat` is the total number of
attempts made. -/
def runRetry {α : Type} (outcomes : Nat → Except ReqError α) :
    Nat → Nat → Except ReqError α × Nat
  | attempt, 0 => (outcomes attempt, attempt + 1)
  | attempt, fuel + 1 =>
    match outcomes attempt with
    | .ok r => (.ok r, attempt + 1)
    | .error _ => runRetry outcomes (attempt + 1) fuel

/-- Model of `fetchWithRetry(url, options, retries = 3, initialDelay = 500)`
(server.js lines 446-496): tries up to `retries + 1` total attempts, returning
the first success; the catch clause does not inspect the error, so every
failure (any status class or transport error) is retried until attempts are
exhausted, and then the last error is surfaced. -/
def fetchWithRetry {α : Type} (outcomes : Nat → Except ReqError α)
    (retries : Nat) : Except ReqError α × Nat :=
  runRetry outcomes 0 retries

/-- Delay (in ms, as an exact rational) waited before attempt `i + 2` of
`fetchWithRetry`, given the sequence of jitter factors
`jitter i = 0.8 + 0.4 * rand_i` drawn by the i-th execution of line 493.
Line 447 starts `currentDelay` at the 500 ms initial delay, line 490 waits the
current value, and line 493 then updates
`currentDelay = Math.min(currentDelay * 2, 10000) * (0.8 + Math.random() * 0.4)`,
so the jitter compounds from one retry into the next. -/
def fetchRetryDelay (jitter : Nat → ℚ) : Nat → ℚ
  | 0 => 500
  | i + 1 => min (2 * fetchRetryDelay jitter i) 10000 * jitter i

/-- Modelled from the spec: the backoff formula claimed in §4.3,
`delay_i = min(baseDelay * 2^i, 10000) * (0.8 + 0.4*rand())` with an
independent jitter factor per retry, for comparison with `fetchRetryDelay`. -/
def specRetryDelay (jitter : Nat → ℚ) (i : Nat) : ℚ :=
  min (500 * 2 ^ i) 10000 * jitter i

/-- Jitter sequence in which every `Math.random()` draw returns 1, so every
jitter factor is `0.8 + 0.4 = 1.2`. -/
def jitterTop : Nat → ℚ := fun _ => 6 / 5

/-- Ticket record as used by the pagination state: Freshdesk id, subject and
creation timestamp (`created_at`, kept abstract as a number). -/
structure Ticket where
  id : Nat
  subject : String
  created_at : Nat
deriving DecidableEq

/-- Pagination cursor stored in `app.locals.homePageState` /
`app.locals.mergePageState`: the session email, the reveal offset
(`currentOffset`), the full fetched list (`allTickets`) and the `hasMore`
flag. -/
structure PageState where
  customerEmail : String
  currentOffset : Nat
  allTickets : List Ticket
  hasMore : Bool
deriving DecidableEq

/-- JavaScript `list.slice(start, stop)` for natural indices. -/
def jsSlice {α : Type} (l : List α) (start stop : Nat) : List α :=
  (l.drop start).take (stop - start)

/-- Home page pagination state created after the upstream fetch of up to 20
tickets (server.js lines 292-314, and identically lines 2050-2055 in the
`submit_ticket_button` fallback and lines 2239-2244 in the `cancel` fallback):
`currentOffset` is set to 5 unconditionally and `hasMore` records whether the
fetched total exceeded 5. -/
def initHomePageState (customerEmail : String) (allTickets : List Ticket) :
    PageState :=
  { customerEmail := customerEmail
    currentOffset := 5
    allTickets := allTickets
    hasMore := decide (5 < allTickets.length) }

/-- Merge page pagination state created by the `add_to_existing_ticket`
branch (server.js lines 1117-1143): the state starts as
`{currentOffset: 0, allTickets: [], hasMore: true}` and is overwritten with
offset 5 and the fetched list only when the fetch returned at least one
ticket. -/
def initMergePageState (customerEmail : String) (allTickets : List Ticket) :
    PageState :=
  if 0 < allTickets.length then
    { customerEmail := customerEmail
      currentOffset := 5
      allTickets := allTickets
      hasMore := decide (5 < allTickets.length) }
  else
    { customerEmail := customerEmail
      currentOffset := 0
      allTickets := []
      hasMore := true }

/-- First window shown right after the home/merge state is created:
`allTickets.slice(0, 5)` (server.js lines 319, 1148, 2057). -/
def initialWindow (allTickets : List Ticket) : List Ticket :=
  jsSlice allTickets 0 5

/-- One load-more advance (the shared logic of the `load_more_tickets` branch,
server.js lines 1476-1485, and the `load_more_home_tickets` branch, lines
1582-1590): slice the next window of at most 5 out of the stored list - no
upstream call is made - then set `currentOffset` to the window end and
recompute `hasMore` as `endIndex < allTickets.length`.  Returns the newly
revealed window together with the updated state. -/
def loadMoreAdvance (st : PageState) : List Ticket × PageState :=
  let startIndex := st.currentOffset
  let endIndex := min (startIndex + 5) st.allTickets.length
  let newTickets := jsSlice st.allTickets startIndex endIndex
  (newTickets,
    { st with
      currentOffset := endIndex
      hasMore := decide (endIndex < st.allTickets.length) })

/-- Canvas Kit component, keeping the fields the server actually sets.
Optional `style` / `align` attributes are `none` where the source object
omits them; `error` on an input is the inline field error. -/
inductive Component where
  | text (txt : String) (style align : Option String)
  | button (id label : String) (style : Option String)
  | spacer (size : String)
  | divider
  | input (id label value : String) (error : Option String)
  | textarea (id label value : String)
  | dropdown (id label value : String) (options : List (String × String))
deriving DecidableEq

/-- The `validation_errors` map the server attaches to a canvas content
object; each entry is `undefined` (our `none`) or an error message. -/
structure ValidationErrors where
  email : Option String
  subject : Option String
deriving DecidableEq

/-- Canvas content returned to Intercom: the component list plus the optional
`validation_errors` map. -/
structure Canvas where
  components : List Component
  validation_errors : Option ValidationErrors
deriving DecidableEq

/-- Session-expired canvas of the `load_more_tickets` branch (server.js lines
1460-1469). -/
def sessionExpiredMergeCanvas : Canvas :=
  Canvas.mk
    [Component.text "Error: Session expired. Please try again." none (some "center"),
     Component.button "back_to_home" "Back to Home" none]
    none

/-- Session-expired canvas of the `load_more_home_tickets` branch (server.js
lines 1566-1575). -/
def sessionExpiredHomeCanvas : Canvas :=
  Canvas.mk
    [Component.text "Error: Session expired. Please try again." none (some "center"),
     Component.button "create_ticket" "Create a Freshdesk Ticket" (some "primary")]
    none

/-- Select-ticket button shown for one ticket on the merge list (server.js
lines 1157-1165 and 1500-1508). -/
def selectTicketButton (t : Ticket) : Component :=
  Component.button ("select_ticket_" ++ toString t.id)
    ("#" ++ toString t.id ++ " - " ++ t.subject) (some "secondary")

/-- Merge-list canvas rendered after a load-more advance (server.js lines
1489-1544): header, one button per revealed ticket, a Load More button while
`hasMore`, and a Back to Home button. -/
def mergeListCanvas (st : PageState) : Canvas :=
  Canvas.mk
    ([Component.text "Select a ticket to merge this conversation into:" (some "header") none]
      ++ ((jsSlice st.allTickets 0 st.currentOffset).map
            (fun t => [selectTicketButton t, Component.spacer "s"])).flatten
      ++ (if st.hasMore then
            [Component.spacer "m",
             Component.button "load_more_tickets" "Load More Tickets" (some "secondary")]
          else [])
      ++ [Component.spacer "m",
          Component.button "back_to_home" "Back to Home" (some "secondary")])
    none

/-- Ticket subject shown on the home list: truncated to 40 characters plus an
ellipsis (server.js lines 128-131). -/
def displaySubject (subject : String) : String :=
  if 40 < subject.length then (subject.take 40).push '.' ++ ".." else subject

/-- Model of `buildRecentTicketsComponent(tickets, showLoadMore)` (server.js
lines 105-171).  `domain` is `FRESHDESK_DOMAIN` and `formatDate t.created_at`
stands for the `toLocaleString` date/time text of lines 113-126 (locale
formatting is platform behaviour, abstracted as an oracle). -/
def buildRecentTicketsComponent (domain : String) (formatDate : Nat → String)
    (tickets : List Ticket) (showLoadMore : Bool) : List Component :=
  if tickets.length ≠ 0 then
    [Component.spacer "l",
     Component.text "Recent Tickets" (some "header") (some "left"),
     Component.spacer "xs"]
    ++ (tickets.map (fun t =>
          [Component.text
             ("[#" ++ toString t.id ++ " - " ++ displaySubject t.subject ++ "](" ++
              domain ++ "/a/tickets/" ++ toString t.id ++ ")")
             (some "muted") none,
           Component.text (formatDate t.created_at) (some "muted") none,
           Component.spacer "xs"])).flatten
    ++ (if showLoadMore then
          [Component.spacer "m",
           Component.button "load_more_home_tickets" "Load More Tickets" (some "secondary")]
        else [])
  else
    [Component.spacer "l",
     Component.text "Recent Tickets" (some "header") (some "left"),
     Component.spacer "xs",
     Component.text "No recent tickets found for this user." (some "muted") none]

/-- The `load_more_tickets` branch (server.js lines 1453-1558): with no
stored merge state it replies with the session-expired canvas and leaves the
state absent; otherwise it advances the cursor locally and re-renders the
merge list.  The branch is total: every input yields a canvas. -/
def loadMoreTicketsBranch (mergeState : Option PageState) :
    Canvas × Option PageState :=
  match mergeState with
  | none => (sessionExpiredMergeCanvas, none)
  | some st =>
    let r := loadMoreAdvance st
    (mergeListCanvas r.2, some r.2)

/-- The `load_more_home_tickets` branch (server.js lines 1559-1653): with no
stored home state it replies with the session-expired canvas; otherwise it
advances the cursor locally and re-renders the home view. -/
def loadMoreHomeTicketsBranch (domain : String) (formatDate : Nat → String)
    (homeState : Option PageState) : Canvas × Option PageState :=
  match homeState with
  | none => (sessionExpiredHomeCanvas, none)
  | some st =>
    let r := loadMoreAdvance st
    (Canvas.mk
      ([Component.spacer "m",
        Component.button "create_ticket" "Create a Freshdesk Ticket" (some "primary"),
        Component.spacer "s",
        Component.button "add_to_existing_ticket" "Add to existing Freshdesk Ticket" (some "secondary"),
        Component.spacer "l"]
        ++ buildRecentTicketsComponent domain formatDate
             (jsSlice r.2.allTickets 0 r.2.currentOffset) r.2.hasMore)
      none,
     some r.2)

/-- True for button components (the navigation affordance of an error
canvas). -/
def Component.isButton : Component → Bool
  | .button _ _ _ => true
  | _ => false

/-- Characters of `sub` occur contiguously inside `l`. -/
def containsSeq (l sub : List Char) : Bool :=
  match l with
  | [] => sub.isEmpty
  | _ :: tl => sub.isPrefixOf l || containsSeq tl sub

/-- JavaScript `s.includes(sub)`. -/
def strContains (s sub : String) : Bool :=
  containsSeq s.toList sub.toList

/-- True for a text component whose text mentions `needle`. -/
def Component.mentions (needle : String) : Component → Bool
  | .text t _ _ => strContains t needle
  | _ => false

/-- JavaScript truthiness fallback `a || b` for strings: the empty string is
falsy. -/
def jsOrStr (a b : String) : String :=
  if a = "" then b else a

/-- JavaScript `v || d` for a possibly-undefined string field. -/
def jsOrOptStr (o : Option String) (d : String) : String :=
  match o with
  | none => d
  | some s => jsOrStr s d

/-- JavaScript `s.trim()`: strip whitespace from both ends. -/
def jsTrim (s : String) : String :=
  String.mk
    (((s.toList.dropWhile Char.isWhitespace).reverse.dropWhile
        Char.isWhitespace).reverse)

/-- The emptiness test the `submit_ticket_button` branch applies to a required
field (server.js lines 1665-1666): `!v || v.trim() === ''`. -/
def isEmptyField (o : Option String) : Bool :=
  match o with
  | none => true
  | some s => jsTrim s = ""

/-- One occurrence replacement on character lists, as performed by the
JavaScript `String.prototype.replace` with a string pattern: only the first
occurrence of `pat` is rewritten to `rep`. -/
def replaceFirstList (pat rep : List Char) : List Char → List Char
  | [] => if pat.isEmpty then rep else []
  | c :: tl =>
    if pat.isPrefixOf (c :: tl) then rep ++ (c :: tl).drop pat.length
    else c :: replaceFirstList pat rep tl

/-- JavaScript `s.replace(pat, rep)` with a plain-string pattern. -/
def replaceFirst (s pat rep : String) : String :=
  String.mk (replaceFirstList pat.toList rep.toList s.toList)

/-- Form values posted with a canvas submission (`req.body.input_values`);
absent fields are `none`. -/
structure InputValues where
  email : Option String
  subject : Option String
  description : Option String
  status : Option String
  priority : Option String
deriving DecidableEq

/-- A status or priority choice fetched from the Freshdesk ticket-field
schema; `cid` is the numeric `id` of a status choice or the numeric `value`
of a priority choice, as each branch uses it. -/
structure FieldChoice where
  cid : Nat
  label : String
deriving DecidableEq

/-- Re-rendered input form returned when a required field is empty
(server.js lines 1704-1809): error headline, the email/subject inputs with
their submitted values echoed (the empty field blanked and flagged), the
description textarea, the status/priority dropdowns when their choices could
be fetched, the action buttons, and the explicit `validation_errors` map. -/
def mkValidationErrorForm (iv : InputValues) (defaultTitle : String)
    (statusChoices priorityChoices : List FieldChoice) : Canvas :=
  let isEmailEmpty := isEmptyField iv.email
  let isSubjectEmpty := isEmptyField iv.subject
  Canvas.mk
    ([Component.text
        (if isEmailEmpty && isSubjectEmpty then "Email and Subject are required"
         else if isEmailEmpty then "Email is required" else "Subject is required")
        (some "error") none,
      Component.input "email" "Email"
        (if isEmailEmpty then "" else iv.email.getD "")
        (if isEmailEmpty then some "Email is required" else none),
      Component.input "subject" "Subject"
        (if isSubjectEmpty then "" else jsOrOptStr iv.subject (jsOrStr defaultTitle "New Ticket"))
        (if isSubjectEmpty then some "Subject is required" else none),
      Component.textarea "description" "Description"
        (jsOrOptStr iv.description "Chat Transcript Added")]
      ++ (if statusChoices.length ≠ 0 then
            [Component.dropdown "status" "Status" (jsOrOptStr iv.status "status_2")
              (statusChoices.map (fun c => ("status_" ++ toString c.cid, c.label)))]
          else [])
      ++ (if priorityChoices.length ≠ 0 then
            [Component.dropdown "priority" "Priority" (jsOrOptStr iv.priority "priority_2")
              (priorityChoices.map (fun c => ("priority_" ++ toString c.cid, c.label)))]
          else [])
      ++ [Component.button "submit_ticket_button" "Create Ticket" (some "primary"),
          Component.button "cancel" "Cancel" (some "secondary")])
    (some (ValidationErrors.mk
      (if isEmailEmpty then some "Email is required" else none)
      (if isSubjectEmpty then some "Subject is required" else none)))

/-- Outcome of the validation phase of the `submit_ticket_button` branch:
either the re-rendered error form is returned immediately (and the branch
exits before any ticket-creation call), or the branch proceeds to ticket
creation with the extracted field values. -/
inductive SubmitOutcome where
  | validationError (canvas : Canvas)
  | proceed (email subject description status priority : String)
deriving DecidableEq

/-- Validation phase of the `submit_ticket_button` branch (server.js lines
1654-1844): when email or subject is empty the error form is returned and the
branch never reaches ticket creation; otherwise the values for the background
ticket-creation task are extracted (trimmed email/subject, description with
the default fallback, status/priority with their prefixes stripped by
`replace`). -/
def submitTicketValidation (iv : InputValues) (defaultTitle defaultDescription : String)
    (statusChoices priorityChoices : List FieldChoice) : SubmitOutcome :=
  if isEmptyField iv.email || isEmptyField iv.subject then
    .validationError (mkValidationErrorForm iv defaultTitle statusChoices priorityChoices)
  else
    .proceed (jsTrim (iv.email.getD "")) (jsTrim (iv.subject.getD ""))
      (jsOrOptStr iv.description (jsOrStr defaultDescription ""))
      (match iv.status with
       | some s => replaceFirst s "status_" ""
       | none => "")
      (match iv.priority with
       | some p => replaceFirst p "priority_" ""
       | none => "")

/-- True when the branch proceeded to ticket creation. -/
def SubmitOutcome.isProceed : SubmitOutcome → Bool
  | .proceed _ _ _ _ _ => true
  | .validationError _ => false

/-- The email entry of the returned validation-error map, when the outcome is
a validation error carrying one. -/
def SubmitOutcome.emailError : SubmitOutcome → Option String
  | .validationError c =>
    match c.validation_errors with
    | some v => v.email
    | none => none
  | .proceed _ _ _ _ _ => none

/-- Value of the first input component with the given id in a component
list. -/
def inputValueOf (id : String) : List Component → Option String
  | [] => none
  | .input i _ v _ :: tl => if i = id then some v else inputValueOf id tl
  | _ :: tl => inputValueOf id tl

/-- Value echoed in the subject field of a validation-error canvas. -/
def SubmitOutcome.subjectFieldValue : SubmitOutcome → Option String
  | .validationError c => inputValueOf "subject" c.components
  | .proceed _ _ _ _ _ => none

/-- State of the reply race inside one `/api/submit` request: the
`responseSent` latch (server.js line 708), the number of `res.json` calls
actually performed for this request, and whether `clearTimeout` has been
called on the deadline timer. -/
structure RaceState where
  responseSent : Bool
  replies : Nat
  timerCleared : Bool
deriving DecidableEq

/-- Atomic steps of the reply race.  `handlerSend` is one `sendResponse(...)`
call (lines 856-865: guarded `res.json`, set latch, clear timer).
`directSend` is a bare `res.json` return that bypasses `sendResponse` (the
`create_ticket` schema-failure return at line 935, the `refresh_status` /
`retry_button` branch at line 2305 and the default branch at line 2339).
`timerEntry` is the synchronous head of the 9-second timeout callback (lines
712-724: check the latch, then set it before awaiting the ticket fetch), and
`timerFinish` is its continuation after the awaited fetch (lines 842-851:
send the homepage only if the latch is still clear). -/
inductive RaceStep where
  | handlerSend
  | directSend
  | timerEntry
  | timerFinish
deriving DecidableEq

/-- Effect of one atomic race step on the race state. -/
def raceStep (s : RaceState) : RaceStep → RaceState
  | .handlerSend =>
    if s.responseSent then s
    else { responseSent := true, replies := s.replies + 1, timerCleared := true }
  | .directSend => { s with replies := s.replies + 1 }
  | .timerEntry =>
    if s.responseSent then s else { s with responseSent := true }
  | .timerFinish =>
    if s.responseSent then s
    else { s with responseSent := true, replies := s.replies + 1 }

/-- Run a schedule of race steps from the initial request state. -/
def raceRun (steps : List RaceStep) : RaceState :=
  steps.foldl raceStep (RaceState.mk false 0 false)

/-- The event-loop schedules possible for a `sendResponse`-based branch of
`/api/submit`: either the handler replies before the 9-second deadline (the
timer is then cleared and never runs), or the deadline fires first and the
handler's reply lands after the timeout callback's entry segment - before or
after its post-await continuation. -/
def raceSchedules : List (List RaceStep) :=
  [[RaceStep.handlerSend],
   [RaceStep.timerEntry, RaceStep.timerFinish, RaceStep.handlerSend],
   [RaceStep.timerEntry, RaceStep.handlerSend, RaceStep.timerFinish]]

/-- Observable actions of one inbound event: the HTTP reply to Intercom, a
Completion Notifier call (`postIntercomNote`), or an unobservable step. -/
inductive EvAct where
  | reply
  | notify
  | tau
deriving DecidableEq

/-- Fuel-indexed worker for `merges`; the fuel dominates the combined length
of the two lists, so the last case is never reached with the fuel `merges`
supplies. -/
def mergesF {α : Type} : Nat → List α → List α → List (List α)
  | _ + 1, [], ys => [ys]
  | _ + 1, x :: xs, [] => [x :: xs]
  | f + 1, x :: xs, y :: ys =>
    ((mergesF f xs (y :: ys)).map (fun l => x :: l))
      ++ ((mergesF f (x :: xs) ys).map (fun l => y :: l))
  | 0, xs, ys => [xs ++ ys]

/-- All order-preserving merges of two lists (the possible resolution orders
of two chains of pending awaits on one event loop). -/
def merges {α : Type} (xs ys : List α) : List (List α) :=
  mergesF (xs.length + ys.length) xs ys

/-- Traces of two async IIFEs invoked back to back: each task is a list of
atomic segments separated by awaits; the first segment of each runs
synchronously at invocation (first task first), and the remaining segments
interleave in any order as their awaited promises resolve. -/
def iifePairTraces (t1 t2 : List (List EvAct)) : List (List EvAct) :=
  match t1, t2 with
  | [], _ => []
  | _, [] => []
  | s1 :: r1, s2 :: r2 =>
    (merges r1 r2).map (fun m => s1 ++ s2 ++ m.flatten)

/-- UI-response IIFE of the `merge_ticket` branch when the cached home page
state matches the customer email (server.js lines 1299-1341, lines
1310-1313): the interim panel is built from the cache and `sendResponse` is
called with no intervening await, all in the invocation segment. -/
def mergeUiTaskCached : List (List EvAct) :=
  [[EvAct.reply]]

/-- UI-response IIFE of the `merge_ticket` branch when no matching cached
state exists (server.js line 1315): the invocation segment starts
`fetchRecentTickets` and suspends; `sendResponse` runs only in the
continuation after that fetch resolves. -/
def mergeUiTaskFresh : List (List EvAct) :=
  [[EvAct.tau], [EvAct.reply]]

/-- Background-processing IIFE of the `merge_ticket` branch (server.js lines
1344-1397): segments separated by the awaited conversation fetch, transcript
formatting and Freshdesk note post; the Completion Notifier call
(`postIntercomNote`, line 1390 or 1395) happens in the final segment. -/
def mergeBackgroundTask : List (List EvAct) :=
  [[EvAct.tau], [EvAct.tau], [EvAct.tau], [EvAct.notify]]

/-- Trace of the `submit_ticket_button` deferred path (server.js lines
2079-2175) when the handler reaches `sendResponse` (line 2080) before the
9-second deadline: the reply is sent before `setTimeout(..., 0)` (line 2089)
schedules the background task, so every background segment - including the
final `postIntercomNote` call (line 2144 or 2163) - runs after the reply. -/
def submitHandlerFirstTrace : List EvAct :=
  [EvAct.reply] ++ [EvAct.tau, EvAct.tau, EvAct.notify]

/-- Trace of the `submit_ticket_button` deferred path when the 9-second
deadline fires before the handler reaches `sendResponse`: the latch set at
line 714 suppresses the send at line 2080 (and the timeout callback itself
never sends - the zero-send slip), so no reply occurs at all, while
`setTimeout(..., 0)` still runs the background task and its
`postIntercomNote` call. -/
def submitTimerFirstTrace : List EvAct :=
  [EvAct.tau] ++ [EvAct.tau, EvAct.tau, EvAct.notify]

/-- The possible observable traces of one `submit_ticket_button` deferred
event: the handler-first schedule (reply, then background notify) and the
timer-first schedule (reply suppressed, background notify still fires). -/
def submitTicketTraces : List (List EvAct) :=
  [submitHandlerFirstTrace, submitTimerFirstTrace]

/-- Helper scan: `seen` records whether a reply has occurred; a notify before
any reply fails the check. -/
def rpnAux : Bool → List EvAct → Bool
  | _, [] => true
  | seen, a :: tl =>
    match a with
    | .notify => seen && rpnAux seen tl
    | .reply => rpnAux true tl
    | .tau => rpnAux seen tl

/-- True when every Completion Notifier call in the trace is preceded by the
reply. -/
def replyPrecedesNotify (tr : List EvAct) : Bool :=
  rpnAux false tr

/-- True when the trace either contains no reply at all, or satisfies
`replyPrecedesNotify`: whenever a reply is sent, it precedes every Completion
Notifier call. -/
def replyWhenSentPrecedesNotify (tr : List EvAct) : Bool :=
  !(tr.contains EvAct.reply) || replyPrecedesNotify tr

/-- An attachment reference produced by `formatConversationAsHtml`: the source
URL, a display name and an optional content type. -/
structure AttachmentRef where
  url : String
  name : String
  content_type : Option String
deriving DecidableEq

/-- An entry of the `_attachments` array carried on ticket data: name,
content type and the downloaded file bytes (kept abstract as a number). -/
structure FdAttachment where
  name : String
  content_type : String
  buffer : Nat
deriving DecidableEq

/-- Ticket payload handed to `addConversationTranscriptToTicket` /
`createFreshdeskTicket`; `attachments` models the optional `_attachments`
array (absent as `[]`). -/
structure TicketData where
  email : String
  subject : String
  description : String
  status : Option Int
  priority : Option Int
  attachments : List FdAttachment
deriving DecidableEq

/-- An Intercom conversation object, kept abstract (only its identity
matters to the logic under verification). -/
structure Conversation where
  convId : Nat
deriving DecidableEq

/-- Result of `formatConversationAsHtml`: the transcript HTML and the
attachment references collected from the conversation. -/
structure FormatResult where
  html : String
  attachments : List AttachmentRef
deriving DecidableEq

/-- Description header block built by `addConversationTranscriptToTicket`
(conversation-helper.js lines 468-472), a template literal whose exact
whitespace is reproduced. -/
def transcriptUrlSection (intercomUrl : String) : String :=
  "\n      <div>Chat Transcript Added</div>\n      <div>Intercom Conversation URL: <a href=\""
    ++ intercomUrl ++ "\" rel=\"noreferrer\">" ++ intercomUrl
    ++ "</a></div>\n      <div>&nbsp;</div>\n    "

/-- Model of `addConversationTranscriptToTicket(ticketData, conversationId)`
(conversation-helper.js lines 415-495).  Effects are oracles:
`fetchConv` is the result of `fetchIntercomConversation` (its own catch
returns null, our `none`); `format` is `formatConversationAsHtml`, with
`Except.error` standing for a thrown error (caught by the enclosing try);
`download url name` is `downloadFile` (null on failure).  With no
conversation id, a failed fetch, or a formatting error, the original ticket
data is returned; otherwise the downloaded attachments are appended and the
description is rebuilt around the transcript. -/
def addConversationTranscriptToTicket (fetchConv : Option Conversation)
    (format : Conversation → Except String FormatResult)
    (download : String → String → Option Nat) (inboxUrl : String)
    (ticketData : TicketData) (conversationId : Option String) : TicketData :=
  match conversationId with
  | none => ticketData
  | some cid =>
    match fetchConv with
    | none => ticketData
    | some conv =>
      match format conv with
      | .error _ => ticketData
      | .ok fr =>
        let newAttachments := fr.attachments.filterMap (fun a =>
          (download a.url a.name).map (fun b =>
            FdAttachment.mk a.name (jsOrOptStr a.content_type "application/octet-stream") b))
        let updated :=
          { ticketData with attachments := ticketData.attachments ++ newAttachments }
        let intercomUrl := inboxUrl ++ "/conversation/" ++ cid
        let urlSection := transcriptUrlSection intercomUrl
        let newDescription :=
          if strContains updated.description "Chat Transcript Added" then
            urlSection ++ fr.html
          else
            urlSection ++ updated.description ++ "\n\n" ++ fr.html
        { updated with description := newDescription }

/-- One `<img ...>` match of the regex at conversation-helper.js line 92: the
whole tag text and the captured `src` URL. -/
structure ImgMatch where
  fullTag : String
  url : String
deriving DecidableEq

/-- An extracted inline image: its (entity-decoded) URL and the sequential
filename assigned to it. -/
structure ExtractedImage where
  url : String
  filename : String
deriving DecidableEq

/-- Return value of `extractInlineImages`. -/
structure ExtractResult where
  modifiedHtml : String
  extractedImages : List ExtractedImage
  nextIndex : Nat
deriving DecidableEq

/-- Sequential filename `image <k>.<ext>` assigned at conversation-helper.js
line 136. -/
def seqImageName (k : Nat) (ext : String) : String :=
  "image " ++ toString k ++ "." ++ ext

/-- Placeholder text substituted for an extracted tag (conversation-helper.js
line 137). -/
def imgPlaceholder (filename : String) : String :=
  "[Inline image: " ++ filename ++ "]"

/-- Model of `extractInlineImages(htmlContent, startIndex)`
(conversation-helper.js lines 77-153).  `none` input stands for a null,
undefined or non-string `htmlContent` (the guard at lines 82-89 then returns
`htmlContent || ''` with no images and the unchanged index).  `imgMatcher`
is the oracle for the `<img ... src="...">` regex scan of lines 92-101
(the JS RegExp engine); `urlDecode` is `he.decode` (line 105) and `urlToExt`
is the filename/extension derivation of lines 107-134 (WHATWG URL parsing
with a regex fallback, defaulting to `png`).  For each match in order, the
tag is replaced in the accumulated HTML by the placeholder for its
sequential filename, the image is recorded, and the index advances by
one.  `extractStep` is the loop body of lines 103-146. -/
def extractStep (urlDecode urlToExt : String → String) (acc : ExtractResult)
    (m : ImgMatch) : ExtractResult :=
  let originalUrl := urlDecode m.url
  let extension := urlToExt originalUrl
  let sequentialFilename := seqImageName acc.nextIndex extension
  ExtractResult.mk
    (replaceFirst acc.modifiedHtml m.fullTag (imgPlaceholder sequentialFilename))
    (acc.extractedImages ++ [ExtractedImage.mk originalUrl sequentialFilename])
    (acc.nextIndex + 1)

/-- Full model of `extractInlineImages(htmlContent, startIndex)` as described
above: guard, then the per-match loop folded over the regex matches. -/
def extractInlineImages (imgMatcher : String → List ImgMatch)
    (urlDecode urlToExt : String → String) (htmlContent : Option String)
    (startIndex : Nat) : ExtractResult :=
  match htmlContent with
  | none => ExtractResult.mk "" [] startIndex
  | some html =>
    (imgMatcher html).foldl (extractStep urlDecode urlToExt)
      (ExtractResult.mk html [] startIndex)

/-- Reference form of the HTML rewriting performed by `extractInlineImages`:
replace, for each match in order, the first occurrence of its tag with the
placeholder of its sequential filename. -/
def applyImgPlaceholders (urlDecode urlToExt : String → String) :
    String → Nat → List ImgMatch → String
  | html, _, [] => html
  | html, k, m :: rest =>
    applyImgPlaceholders urlDecode urlToExt
      (replaceFirst html m.fullTag
        (imgPlaceholder (seqImageName k (urlToExt (urlDecode m.url)))))
      (k + 1) rest

/-- Concrete attempt sequence: a 404 response on the first attempt, then
success. -/
def attempts404ThenOk : Nat → Except ReqError Nat :=
  fun i => if i = 0 then Except.error (ReqError.httpStatus 404) else Except.ok 7

/-- Concrete attempt sequence: 503 responses on the first two attempts, then
success. -/
def attempts503ThenOk : Nat → Except ReqError Nat :=
  fun i => if i ≤ 1 then Except.error (ReqError.httpStatus 503) else Except.ok 7

/-- A fetch result of exactly three tickets. -/
def threeTickets : List Ticket :=
  [Ticket.mk 1 "a" 0, Ticket.mk 2 "b" 0, Ticket.mk 3 "c" 0]

/-- A fetch result of exactly twenty tickets. -/
def tickets20 : List Ticket :=
  (List.range 20).map (fun i => Ticket.mk i "t" 0)

/-- State after `n` load-more advances. -/
def loadMoreIter : Nat → PageState → PageState
  | 0, st => st
  | n + 1, st => loadMoreIter n (loadMoreAdvance st).2

/-- Window revealed by the `(n+1)`-th load-more event. -/
def nthWindow (st : PageState) (n : Nat) : List Ticket :=
  (loadMoreAdvance (loadMoreIter n st)).1

/-- C1: in the `/api/submit` reply race, the code sends exactly one reply only
when the handler wins; when the 9-second deadline fires first, the timeout
callback sets the `responseSent` latch at entry (line 714) and its own send at
line 842 is guarded by the latch, so neither the timeout callback nor the
handler's later `sendResponse` ever replies - zero replies are sent, refuting
the exactly-one-reply property on every timer-first schedule. -/
theorem deadline_race_zero_send :
    (raceRun [RaceStep.timerEntry, RaceStep.timerFinish, RaceStep.handlerSend]).replies = 0 ∧
    (raceRun [RaceStep.timerEntry, RaceStep.handlerSend, RaceStep.timerFinish]).replies = 0 ∧
    (raceRun [RaceStep.handlerSend]).replies = 1 ∧
    (raceSchedules.all (fun s => (raceRun s).replies == 1)) = false := by
  decide

/-- C6 counterexample: for the `merge_ticket` branch without a matching cached
home page state, the UI task suspends on its ticket fetch while the background
task runs; the schedule in which every background segment resolves first is a
possible event-loop trace, and on it the Completion Notifier call precedes the
reply. -/
theorem merge_notify_before_reply_cx :
    ((iifePairTraces mergeUiTaskFresh mergeBackgroundTask).all replyPrecedesNotify) = false := by
  decide

/-- C6 amended: for the `merge_ticket` branch with a matching cached home
page state the reply precedes every Completion Notifier call of the event on
every schedule (it is sent in the UI task's synchronous invocation segment,
before the background task starts).  For the `submit_ticket_button` deferred
path, whenever a reply is sent it precedes every Completion Notifier call
(the background task is scheduled only after `sendResponse`); this holds on
the handler-first schedule, while on the timer-first schedule no reply is
sent at all (the C1 zero-send slip) yet the background task still calls the
notifier. -/
theorem reply_precedes_notify_amended :
    ((iifePairTraces mergeUiTaskCached mergeBackgroundTask).all replyPrecedesNotify) = true ∧
    (submitTicketTraces.all replyWhenSentPrecedesNotify) = true ∧
    replyPrecedesNotify submitHandlerFirstTrace = true ∧
    submitTimerFirstTrace.contains EvAct.reply = false ∧
    submitTimerFirstTrace.contains EvAct.notify = true := by
  decide

/-- C8: a load-more event with no stored pagination state (merge or home)
returns the session-expired canvas - which carries a navigation button and a
"Session expired" message - and, being a total function of the request, never
crashes the process. -/
theorem load_more_missing_state_session_expired (domain : String)
    (formatDate : Nat → String) :
    loadMoreTicketsBranch none = (sessionExpiredMergeCanvas, none) ∧
    loadMoreHomeTicketsBranch domain formatDate none = (sessionExpiredHomeCanvas, none) ∧
    (sessionExpiredMergeCanvas.components.any Component.isButton) = true ∧
    (sessionExpiredHomeCanvas.components.any Component.isButton) = true ∧
    (sessionExpiredMergeCanvas.components.any (Component.mentions "Session expired")) = true ∧
    (sessionExpiredHomeCanvas.components.any (Component.mentions "Session expired")) = true := by
  refine ⟨rfl, rfl, ?_, ?_, ?_, ?_⟩ <;> decide

/-- C8 witness: the theorem instantiated at a concrete domain and date
formatter. -/
theorem load_more_missing_state_session_expired_witness :
    loadMoreTicketsBranch none = (sessionExpiredMergeCanvas, none) ∧
    loadMoreHomeTicketsBranch "https://example.freshdesk.com" (fun _ => "01/01/2024")
        none = (sessionExpiredHomeCanvas, none) ∧
    (sessionExpiredMergeCanvas.components.any Component.isButton) = true ∧
    (sessionExpiredHomeCanvas.components.any Component.isButton) = true ∧
    (sessionExpiredMergeCanvas.components.any (Component.mentions "Session expired")) = true ∧
    (sessionExpiredHomeCanvas.components.any (Component.mentions "Session expired")) = true :=
  load_more_missing_state_session_expired "https://example.freshdesk.com" (fun _ => "01/01/2024")

/-- C4 counterexample: against attempts that 404 on the first try and succeed
on the second, `fetchWithRetry` makes a second attempt and returns its
success - the 404 is retried rather than surfaced immediately as the claim
states. -/
theorem retry_after_404_cx :
    fetchWithRetry attempts404ThenOk 3 = (Except.ok 7, 2) := by
  rfl

/-- With every attempt failing, the retry loop exhausts its fuel and surfaces
the error of the last attempt, having made `fuel + 1` attempts from
`attempt`. -/
theorem runRetry_allError {α : Type} (o : Nat → Except ReqError α)
    (f : Nat → ReqError) (h : ∀ i, o i = Except.error (f i)) :
    ∀ fuel attempt, runRetry o attempt fuel =
      (Except.error (f (attempt + fuel)), attempt + fuel + 1) := by
  intro fuel
  induction fuel with
  | zero => intro a; simp [runRetry, h a]
  | succ n ih =>
    intro a
    have ha := h a
    simp only [runRetry, ha]
    rw [ih (a + 1), show a + 1 + n = a + (n + 1) by omega]

/-- C4 amended: `fetchWithRetry` retries after every failed attempt regardless
of error class - a 4xx response is retried exactly like a transport error or a
5xx - returning the first success (after two 503 failures the success response
of the third attempt is returned, i.e. exactly 2 retries), and only when all
`retries + 1` attempts fail is the last error surfaced to the caller. -/
theorem fetchWithRetry_amended {α : Type} (o : Nat → Except ReqError α)
    (e1 e2 : ReqError) (r : α) (f : Nat → ReqError) (retries : Nat) :
    (o 0 = Except.error e1 → o 1 = Except.ok r → 1 ≤ retries →
      fetchWithRetry o retries = (Except.ok r, 2)) ∧
    (o 0 = Except.error e1 → o 1 = Except.error e2 → o 2 = Except.ok r →
      2 ≤ retries → fetchWithRetry o retries = (Except.ok r, 3)) ∧
    ((∀ i, o i = Except.error (f i)) →
      fetchWithRetry o retries = (Except.error (f retries), retries + 1)) := by
  refine ⟨?_, ?_, ?_⟩
  · intro h0 h1 hr
    match retries, hr with
    | n + 1, _ =>
      simp only [fetchWithRetry, runRetry, h0]
      match n with
      | 0 => simp [runRetry, h1]
      | m + 1 => simp [runRetry, h1]
  · intro h0 h1 h2 hr
    match retries, hr with
    | n + 2, _ =>
      simp only [fetchWithRetry, runRetry, h0, h1]
      match n with
      | 0 => simp [runRetry, h2]
      | m + 1 => simp [runRetry, h2]
  · intro h
    have := runRetry_allError o f h retries 0
    simpa [fetchWithRetry] using this

/-- C4 amended witness: the 503-503-success schedule returns the third
attempt's success after exactly two retries. -/
theorem fetchWithRetry_amended_witness :
    fetchWithRetry attempts503ThenOk 3 = (Except.ok 7, 3) :=
  (fetchWithRetry_amended attempts503ThenOk (ReqError.httpStatus 503)
      (ReqError.httpStatus 503) 7 (fun _ => ReqError.httpStatus 503) 3).2.1
    rfl rfl rfl (by omega)

/-- C7 counterexample: with every `Math.random()` draw equal to 1 (jitter
factor 1.2), the delay before the sixth attempt is 12000 ms - the code
multiplies the 10000 ms cap by the jitter, exceeding the claimed 10-second
bound - while the claimed formula gives 9600 ms for the same draws (the first
retry also waits exactly 500 ms with no jitter at all). -/
theorem backoff_formula_cx :
    fetchRetryDelay jitterTop 4 = 12000 ∧
    specRetryDelay jitterTop 4 = 9600 ∧
    fetchRetryDelay jitterTop 4 ≠ specRetryDelay jitterTop 4 ∧
    ¬ fetchRetryDelay jitterTop 4 ≤ 10000 ∧
    fetchRetryDelay jitterTop 0 = 500 ∧
    specRetryDelay jitterTop 0 = 600 := by
  have h0 : fetchRetryDelay jitterTop 0 = 500 := rfl
  have h1 : fetchRetryDelay jitterTop 1 = 1200 := by
    rw [show (1 : Nat) = 0 + 1 from rfl, fetchRetryDelay, h0]
    norm_num [jitterTop, min_def]
  have h2 : fetchRetryDelay jitterTop 2 = 2880 := by
    rw [show (2 : Nat) = 1 + 1 from rfl, fetchRetryDelay, h1]
    norm_num [jitterTop, min_def]
  have h3 : fetchRetryDelay jitterTop 3 = 6912 := by
    rw [show (3 : Nat) = 2 + 1 from rfl, fetchRetryDelay, h2]
    norm_num [jitterTop, min_def]
  have h4 : fetchRetryDelay jitterTop 4 = 12000 := by
    rw [show (4 : Nat) = 3 + 1 from rfl, fetchRetryDelay, h3]
    norm_num [jitterTop, min_def]
  have hs : specRetryDelay jitterTop 4 = 9600 := by
    norm_num [specRetryDelay, jitterTop, min_def]
  have hs0 : specRetryDelay jitterTop 0 = 600 := by
    norm_num [specRetryDelay, jitterTop, min_def]
  refine ⟨h4, hs, ?_, ?_, h0, hs0⟩
  · rw [h4, hs]; norm_num
  · rw [h4]; norm_num

/-- C7 amended: the first retry waits exactly the 500 ms base delay with no
jitter; each later delay is the previous one doubled, capped at 10000 ms, and
then scaled by that retry's jitter factor - so the jitter compounds across
retries and, under the 0.8..1.2 jitter bounds, every delay is nonnegative and
at most 12000 ms (the cap times the maximal jitter), a bound the code can
attain. -/
theorem fetchRetryDelay_amended (jitter : Nat → ℚ)
    (hj : ∀ k, 4 / 5 ≤ jitter k ∧ jitter k ≤ 6 / 5) :
    fetchRetryDelay jitter 0 = 500 ∧
    (∀ i, fetchRetryDelay jitter (i + 1) =
      min (2 * fetchRetryDelay jitter i) 10000 * jitter i) ∧
    (∀ i, 0 ≤ fetchRetryDelay jitter i ∧ fetchRetryDelay jitter i ≤ 12000) := by
  refine ⟨rfl, fun i => rfl, ?_⟩
  intro i
  induction i with
  | zero => norm_num [fetchRetryDelay]
  | succ n ih =>
    have hjn := hj n
    have hmin0 : (0 : ℚ) ≤ min (2 * fetchRetryDelay jitter n) 10000 := by
      rcases ih with ⟨ih0, _⟩
      have : (0 : ℚ) ≤ 2 * fetchRetryDelay jitter n := by linarith
      exact le_min this (by norm_num)
    have hminc : min (2 * fetchRetryDelay jitter n) 10000 ≤ (10000 : ℚ) :=
      min_le_right _ _
    constructor
    · show (0 : ℚ) ≤ min (2 * fetchRetryDelay jitter n) 10000 * jitter n
      have hj0 : (0 : ℚ) ≤ jitter n := by linarith [hjn.1]
      exact mul_nonneg hmin0 hj0
    · show min (2 * fetchRetryDelay jitter n) 10000 * jitter n ≤ 12000
      calc min (2 * fetchRetryDelay jitter n) 10000 * jitter n
          ≤ 10000 * (6 / 5 : ℚ) := by
            apply mul_le_mul hminc hjn.2 (by linarith [hjn.1]) (by norm_num)
        _ = 12000 := by norm_num

/-- C7 amended witness: the bounds instantiated at the all-maximal jitter
sequence. -/
theorem fetchRetryDelay_amended_witness :
    fetchRetryDelay jitterTop 0 = 500 ∧
    (0 ≤ fetchRetryDelay jitterTop 4 ∧ fetchRetryDelay jitterTop 4 ≤ 12000) :=
  ⟨(fetchRetryDelay_amended jitterTop
      (fun _ => by constructor <;> norm_num [jitterTop])).1,
   (fetchRetryDelay_amended jitterTop
      (fun _ => by constructor <;> norm_num [jitterTop])).2.2 4⟩

/-- C5 counterexample: creating the home page state from a fetch of three
tickets sets `currentOffset` to 5, which exceeds `allTickets.length = 3` -
the claimed invariant fails at creation whenever fewer than 5 items are
fetched. -/
theorem offset_invariant_cx :
    ¬ (initHomePageState "user@example.com" threeTickets).currentOffset ≤
        (initHomePageState "user@example.com" threeTickets).allTickets.length := by
  decide

/-- C5 amended: every load-more advance establishes
`currentOffset ≤ allTickets.length` (the new offset is clamped to the list
length), and state creation satisfies the invariant whenever the fetch
returned at least 5 items (home, merge and the submit-branch fallback all set
the offset to 5) or, for the merge state, no items at all; with 1 to 4
fetched items creation stores an offset of 5 exceeding the list length (the
display still clamps via `slice`). -/
theorem offset_invariant_amended (st : PageState) (e : String)
    (ts : List Ticket) (h5 : 5 ≤ ts.length) :
    (loadMoreAdvance st).2.currentOffset ≤
      (loadMoreAdvance st).2.allTickets.length ∧
    (initHomePageState e ts).currentOffset ≤
      (initHomePageState e ts).allTickets.length ∧
    (initMergePageState e ts).currentOffset ≤
      (initMergePageState e ts).allTickets.length ∧
    (initMergePageState e []).currentOffset = 0 := by
  refine ⟨?_, ?_, ?_, rfl⟩
  · simp only [loadMoreAdvance]
    exact min_le_right _ _
  · simpa [initHomePageState] using h5
  · have hpos : 0 < ts.length := by omega
    simp [initMergePageState, hpos]
    exact h5

/-- C5 amended witness: the invariant instantiated at a 20-ticket fetch and a
concrete page state. -/
theorem offset_invariant_amended_witness :
    (loadMoreAdvance (initHomePageState "w@example.com" tickets20)).2.currentOffset ≤
      (loadMoreAdvance (initHomePageState "w@example.com" tickets20)).2.allTickets.length ∧
    (initHomePageState "w@example.com" tickets20).currentOffset ≤
      (initHomePageState "w@example.com" tickets20).allTickets.length ∧
    (initMergePageState "w@example.com" tickets20).currentOffset ≤
      (initMergePageState "w@example.com" tickets20).allTickets.length ∧
    (initMergePageState "w@example.com" []).currentOffset = 0 :=
  offset_invariant_amended (initHomePageState "w@example.com" tickets20)
    "w@example.com" tickets20 (by decide)

/-- C3: a home/merge list started from a fetch of 20 tickets with page size 5
has `hasMore = true` and an initial window of exactly 5 tickets; the next
three load-more advances - pure slices of the stored list, with no further
upstream call - each reveal exactly 5 more, after the third advance `hasMore`
is false, and a fourth advance reveals an empty window with `hasMore` still
false. -/
theorem pagination_20_by_5 (e : String) (ts : List Ticket)
    (h : ts.length = 20) :
    (initHomePageState e ts).hasMore = true ∧
    (initialWindow ts).length = 5 ∧
    (nthWindow (initHomePageState e ts) 0).length = 5 ∧
    (nthWindow (initHomePageState e ts) 1).length = 5 ∧
    (nthWindow (initHomePageState e ts) 2).length = 5 ∧
    (loadMoreIter 3 (initHomePageState e ts)).hasMore = false ∧
    nthWindow (initHomePageState e ts) 3 = [] ∧
    (loadMoreIter 4 (initHomePageState e ts)).hasMore = false := by
  have s0 : initHomePageState e ts = PageState.mk e 5 ts true := by
    simp [initHomePageState, h]
  have adv : ∀ (k : Nat) (b : Bool),
      (loadMoreAdvance (PageState.mk e k ts b)).2 =
        PageState.mk e (min (k + 5) 20) ts (decide (min (k + 5) 20 < 20)) := by
    intro k b
    simp [loadMoreAdvance, h]
  have st1 : loadMoreIter 1 (initHomePageState e ts) = PageState.mk e 10 ts true := by
    show (loadMoreAdvance (initHomePageState e ts)).2 = _
    rw [s0, adv 5 true]
    norm_num
  have st2 : loadMoreIter 2 (initHomePageState e ts) = PageState.mk e 15 ts true := by
    show (loadMoreAdvance (loadMoreIter 1 (initHomePageState e ts))).2 = _
    rw [st1, adv 10 true]
    norm_num
  have st3 : loadMoreIter 3 (initHomePageState e ts) = PageState.mk e 20 ts false := by
    show (loadMoreAdvance (loadMoreIter 2 (initHomePageState e ts))).2 = _
    rw [st2, adv 15 true]
    norm_num
  have st4 : loadMoreIter 4 (initHomePageState e ts) = PageState.mk e 20 ts false := by
    show (loadMoreAdvance (loadMoreIter 3 (initHomePageState e ts))).2 = _
    rw [st3, adv 20 false]
    norm_num
  have w0 : nthWindow (initHomePageState e ts) 0 = jsSlice ts 5 10 := by
    show (loadMoreAdvance (initHomePageState e ts)).1 = _
    rw [s0]
    simp [loadMoreAdvance, jsSlice, h]
  have w1 : nthWindow (initHomePageState e ts) 1 = jsSlice ts 10 15 := by
    show (loadMoreAdvance (loadMoreIter 1 (initHomePageState e ts))).1 = _
    rw [st1]
    simp [loadMoreAdvance, jsSlice, h]
  have w2 : nthWindow (initHomePageState e ts) 2 = jsSlice ts 15 20 := by
    show (loadMoreAdvance (loadMoreIter 2 (initHomePageState e ts))).1 = _
    rw [st2]
    simp [loadMoreAdvance, jsSlice, h]
  have w3 : nthWindow (initHomePageState e ts) 3 = [] := by
    show (loadMoreAdvance (loadMoreIter 3 (initHomePageState e ts))).1 = _
    rw [st3]
    simp [loadMoreAdvance, jsSlice, h]
  refine ⟨by rw [s0], ?_, ?_, ?_, ?_, by rw [st3], w3, by rw [st4]⟩
  · simp [initialWindow, jsSlice, h]
  · rw [w0]; simp [jsSlice, h]
  · rw [w1]; simp [jsSlice, h]
  · rw [w2]; simp [jsSlice, h]

/-- C3 witness: the pagination walk instantiated at a concrete list of 20
tickets. -/
theorem pagination_20_by_5_witness :
    (initHomePageState "w@example.com" tickets20).hasMore = true ∧
    (initialWindow tickets20).length = 5 ∧
    (nthWindow (initHomePageState "w@example.com" tickets20) 0).length = 5 ∧
    (nthWindow (initHomePageState "w@example.com" tickets20) 1).length = 5 ∧
    (nthWindow (initHomePageState "w@example.com" tickets20) 2).length = 5 ∧
    (loadMoreIter 3 (initHomePageState "w@example.com" tickets20)).hasMore = false ∧
    nthWindow (initHomePageState "w@example.com" tickets20) 3 = [] ∧
    (loadMoreIter 4 (initHomePageState "w@example.com" tickets20)).hasMore = false :=
  pagination_20_by_5 "w@example.com" tickets20 (by decide)

/-- C2: submitting the create-ticket form with an empty email and a non-empty
subject never reaches the ticket-creation flow; the branch returns the
re-rendered input form whose `validation_errors` map carries the
email-required message and whose subject field echoes the submitted subject
unchanged. -/
theorem submit_empty_email_validation (iv : InputValues)
    (dt dd : String) (sc pc : List FieldChoice) (s : String)
    (h1 : isEmptyField iv.email = true) (h2 : iv.subject = some s)
    (h3 : ¬ jsTrim s = "") :
    (submitTicketValidation iv dt dd sc pc).isProceed = false ∧
    (submitTicketValidation iv dt dd sc pc).emailError = some "Email is required" ∧
    (submitTicketValidation iv dt dd sc pc).subjectFieldValue = some s := by
  have hs0 : s ≠ "" := by
    intro he
    apply h3
    rw [he]
    decide
  have hsub : isEmptyField iv.subject = false := by
    rw [h2]
    simp [isEmptyField, h3]
  have hout : submitTicketValidation iv dt dd sc pc =
      SubmitOutcome.validationError (mkValidationErrorForm iv dt sc pc) := by
    simp [submitTicketValidation, h1]
  refine ⟨?_, ?_, ?_⟩
  · rw [hout]; rfl
  · rw [hout]
    simp [SubmitOutcome.emailError, mkValidationErrorForm, h1]
  · rw [hout]
    simp only [SubmitOutcome.subjectFieldValue, mkValidationErrorForm, h1, hsub]
    simp [inputValueOf, h2, jsOrOptStr, jsOrStr, hs0]

/-- C2 witness: a concrete submission with no email and subject
"Printer is broken". -/
theorem submit_empty_email_validation_witness :
    (submitTicketValidation
        (InputValues.mk none (some "Printer is broken") none none none)
        "Conversation from Max" "" [] []).isProceed = false ∧
    (submitTicketValidation
        (InputValues.mk none (some "Printer is broken") none none none)
        "Conversation from Max" "" [] []).emailError = some "Email is required" ∧
    (submitTicketValidation
        (InputValues.mk none (some "Printer is broken") none none none)
        "Conversation from Max" "" [] []).subjectFieldValue =
      some "Printer is broken" :=
  submit_empty_email_validation
    (InputValues.mk none (some "Printer is broken") none none none)
    "Conversation from Max" "" [] [] "Printer is broken" rfl rfl (by decide)

/-- C9: `addConversationTranscriptToTicket` returns the caller's ticket data
unchanged whenever no conversation id is given, the conversation fetch
returns null, or transcript building throws - the ticket data is never
returned partially modified on a failure path. -/
theorem addTranscript_failure_identity (fc : Option Conversation)
    (format : Conversation → Except String FormatResult)
    (err : Conversation → String) (dl : String → String → Option Nat)
    (url : String) (td : TicketData) (cid : Option String) :
    addConversationTranscriptToTicket fc format dl url td none = td ∧
    addConversationTranscriptToTicket none format dl url td cid = td ∧
    ((∀ c, format c = Except.error (err c)) →
      addConversationTranscriptToTicket fc format dl url td cid = td) := by
  refine ⟨rfl, ?_, ?_⟩
  · cases cid with
    | none => rfl
    | some c => rfl
  · intro h
    cases cid with
    | none => rfl
    | some c =>
      cases fc with
      | none => rfl
      | some conv =>
        simp [addConversationTranscriptToTicket, h conv]

/-- C9 witness: a concrete ticket is returned unchanged when formatting
always throws. -/
theorem addTranscript_failure_identity_witness :
    addConversationTranscriptToTicket (some (Conversation.mk 1))
      (fun _ => Except.error "boom") (fun _ _ => none)
      "https://app.intercom.com/inbox" 
      (TicketData.mk "u@example.com" "Subj" "Desc" none none [])
      (some "123") =
      TicketData.mk "u@example.com" "Subj" "Desc" none none [] :=
  (addTranscript_failure_identity (some (Conversation.mk 1))
      (fun _ => Except.error "boom") (fun _ => "boom") (fun _ _ => none)
      "https://app.intercom.com/inbox"
      (TicketData.mk "u@example.com" "Subj" "Desc" none none [])
      (some "123")).2.2 (fun _ => rfl)

/-- Unrolling the per-match fold of `extractInlineImages`: starting from
accumulated html, images and index, the fold rewrites the html through the
successive placeholder replacements, appends one image per match whose
sequential filename follows the running index, and advances the index by the
number of matches. -/
theorem extract_foldl_spec (ud ue : String → String) (ms : List ImgMatch) :
    ∀ (html : String) (acc : List ExtractedImage) (i : Nat),
      ms.foldl (extractStep ud ue) (ExtractResult.mk html acc i) =
        ExtractResult.mk (applyImgPlaceholders ud ue html i ms)
          (acc ++ (List.enumFrom i ms).map (fun p =>
            ExtractedImage.mk (ud p.2.url) (seqImageName p.1 (ue (ud p.2.url)))))
          (i + ms.length) := by
  induction ms with
  | nil => intro html acc i; simp [applyImgPlaceholders]
  | cons m rest ih =>
    intro html acc i
    simp only [List.foldl_cons, extractStep]
    rw [ih]
    simp [applyImgPlaceholders, List.enumFrom]
    omega

/-- C10: `extractInlineImages` is total on arbitrary input.  For null or
non-string html it returns empty html, no images and the unchanged index;
for string html with `n` regex matches it returns `nextIndex = startIndex + n`,
one extracted image per match carrying the decoded URL and the name
`image k.<ext>` with `k` consecutive from `startIndex`, and the html obtained
by replacing each matched tag in order with its placeholder. -/
theorem extractInlineImages_spec (m : String → List ImgMatch)
    (ud ue : String → String) (s : String) (start : Nat) :
    extractInlineImages m ud ue none start = ExtractResult.mk "" [] start ∧
    (extractInlineImages m ud ue (some s) start).nextIndex =
      start + (m s).length ∧
    (extractInlineImages m ud ue (some s) start).extractedImages =
      (List.enumFrom start (m s)).map (fun p =>
        ExtractedImage.mk (ud p.2.url) (seqImageName p.1 (ue (ud p.2.url)))) ∧
    (extractInlineImages m ud ue (some s) start).modifiedHtml =
      applyImgPlaceholders ud ue s start (m s) := by
  have key := extract_foldl_spec ud ue (m s) s [] start
  refine ⟨rfl, ?_, ?_, ?_⟩
  · show ((m s).foldl (extractStep ud ue) (ExtractResult.mk s [] start)).nextIndex = _
    rw [key]
  · show ((m s).foldl (extractStep ud ue) (ExtractResult.mk s [] start)).extractedImages = _
    rw [key]
    simp
  · show ((m s).foldl (extractStep ud ue) (ExtractResult.mk s [] start)).modifiedHtml = _
    rw [key]
